import Mathlib

/-!
Verification of `src/aggregate_logs.py` (hourly sales-log aggregation pipeline).

This file gives a shallow embedding of the pipeline's pure core and of its
driver `main`, and proves or refutes the frozen claims about it.

Modelling conventions:
* Python `float` arithmetic is modelled over `ℚ` (exact rationals); claims
  about totals are stated up to this abstraction, which subsumes the spec's
  floating-point tolerance.
* Python dictionaries are modelled as insertion-ordered association lists
  with unique keys (`addTo` reproduces `d[k] += v` with default `0.0`).
* The Spark calls in `process_log_file` are modelled by their documented
  semantics for delimiter-separated text without quoting/escaping:
  `spark.read.option("delimiter","|").csv` determines the column count from
  the first row, pads short rows with nulls and truncates long rows
  (PERMISSIVE mode); `cast("float")` turns unparseable text into null;
  `groupBy(...).agg(sum(...))` skips nulls and returns null for an all-null
  group.  `csv` numeric parsing is modelled for plain decimal literals
  (optional sign, digits, optional fraction); scientific notation and
  surrounding whitespace are outside the inputs considered here.
* Filesystem effects are modelled by an explicit `FS` record (directory
  listing, per-folder glob result, per-file read result) and an effect trace.
-/

/-- Splitting a character list on the pipe character, one empty field for the
empty input: the model of Python's `split("|")` / Spark's `|`-delimited row
reading used by `process_log_file`. -/
def splitPipe : List Char → List (List Char)
  | [] => [[]]
  | c :: rest =>
    match splitPipe rest with
    | [] => [[c]]
    | f :: fs => if c = '|' then [] :: f :: fs else (c :: f) :: fs

/-- Value of a list of decimal digit characters, most significant first. -/
def digitsToNat (l : List Char) : Nat :=
  l.foldl (fun a c => a * 10 + (c.toNat - 48)) 0

/-- Parsing a plain decimal literal (optional sign, digits, optional single
fraction part) into an exact rational.  Model of the numeric parsing done by
Spark's `cast("float")` (and of Python `float`) on the decimal-text prices
that the input format prescribes; returns `none` on unparseable text, as the
cast returns null. -/
def parseDecimal (s : String) : Option ℚ :=
  let body : List Char :=
    match s.data with
    | '-' :: rest => rest
    | '+' :: rest => rest
    | l => l
  let sgn : ℚ :=
    match s.data with
    | '-' :: _ => -1
    | _ => 1
  let ip := body.takeWhile (fun c => c ≠ '.')
  let rest := body.dropWhile (fun c => c ≠ '.')
  match rest with
  | [] =>
    if ip ≠ [] ∧ ip.all Char.isDigit then
      some (sgn * (digitsToNat ip : ℚ))
    else none
  | _ :: frac =>
    if (ip ≠ [] ∨ frac ≠ []) ∧ ip.all Char.isDigit ∧ frac.all Char.isDigit then
      some (sgn * ((digitsToNat ip : ℚ) + (digitsToNat frac : ℚ) / (10 : ℚ) ^ frac.length))
    else none

/-- Model of Python's `str.isdigit` on one character, restricted to the
character classes exercised in this development: the ASCII digits, the
superscript digits (U+00B9, U+00B2, U+00B3, U+2070, U+2074–U+2079) and the
Arabic-Indic digits (U+0660–U+0669).  Python's `isdigit` accepts further
Unicode digit characters; all characters appearing in this file are covered
faithfully by this table. -/
def pyIsDigit (c : Char) : Bool :=
  c.isDigit || c = '¹' || c = '²' || c = '³' ||
    (0x2070 ≤ c.toNat && c.toNat ≤ 0x2079 &&
      c.toNat ≠ 0x2071 && c.toNat ≠ 0x2072 && c.toNat ≠ 0x2073) ||
    (0x0660 ≤ c.toNat && c.toNat ≤ 0x0669)

/-- Model of Python's `str.isdigit` on a whole string: nonempty and every
character a digit in the sense of `pyIsDigit`. -/
def pyIsDigitStr (s : String) : Bool :=
  !s.data.isEmpty && s.data.all pyIsDigit

/-- Translated from `get_hour_folders` (src/aggregate_logs.py:20-23):
`[d for d in os.listdir(base_path) if len(d) == 10 and d.isdigit()]`.
The `os.listdir` result is passed in as `base_listing`. -/
def get_hour_folders (base_listing : List String) : List String :=
  base_listing.filter (fun d => d.length == 10 && pyIsDigitStr d)

/-- Python slice `s[a:b]` for nonnegative `a ≤ b`; clamps at the string
length, so it is total and never raises. -/
def pySlice (s : String) (a b : Nat) : String :=
  String.mk ((s.data.drop a).take (b - a))

/-- Translated from `format_datetime` (src/aggregate_logs.py:49-56):
slices the folder name as `s[0:4] / s[4:6] / s[6:8] ⬝ s[8:10]` and joins with
separators, with no validation of length or digits. -/
def format_datetime (folder_name : String) : String :=
  pySlice folder_name 0 4 ++ "/" ++ pySlice folder_name 4 6 ++ "/" ++
    pySlice folder_name 6 8 ++ " " ++ pySlice folder_name 8 10

/-- The decimal digit character for `n ≤ 9` (clamped above). -/
def digitChar (n : Nat) : Char :=
  if n = 0 then '0' else if n = 1 then '1' else if n = 2 then '2'
    else if n = 3 then '3' else if n = 4 then '4' else if n = 5 then '5'
    else if n = 6 then '6' else if n = 7 then '7' else if n = 8 then '8' else '9'

/-- Two-digit zero-padded rendering of `n < 100`. -/
def twoDigits (n : Nat) : String :=
  String.mk [digitChar (n / 10), digitChar (n % 10)]

/-- Round to the nearest integer, ties to even: the rounding used by Python's
fixed-point float formatting. -/
def roundHalfEven (q : ℚ) : Int :=
  let fl := ⌊q⌋
  let r := q - (fl : ℚ)
  if r < 1 / 2 then fl
  else if 1 / 2 < r then fl + 1
  else if fl % 2 = 0 then fl else fl + 1

/-- Model of the Python f-string `f"{total:.2f}"` over the rational price
model: round `total` to 2 decimal places (ties to even) and render with a
decimal point and exactly two fraction digits. -/
def formatTotal2 (total : ℚ) : String :=
  let n := roundHalfEven (total * 100)
  (if n < 0 then "-" else "") ++ Nat.repr (n.natAbs / 100) ++ "." ++ twoDigits (n.natAbs % 100)

/-- Python dict update `d[k] = d.get(k, 0.0) + v` preserving insertion order:
translated from the accumulation loop in `main` (src/aggregate_logs.py:91-95). -/
def addTo {α : Type} [DecidableEq α] (m : List (α × ℚ)) (k : α) (v : ℚ) : List (α × ℚ) :=
  match m with
  | [] => [(k, v)]
  | (k', v') :: rest => if k' = k then (k', v' + v) :: rest else (k', v') :: addTo rest k v

/-- Total recorded for key `p` in an association list (0 when absent). -/
def totalOf {α : Type} [DecidableEq α] (m : List (α × ℚ)) (p : α) : ℚ :=
  match m with
  | [] => 0
  | (k, v) :: rest => (if k = p then v else 0) + totalOf rest p

/-- The keys of an association list, in order. -/
def keysOf {α β : Type} (m : List (α × β)) : List α :=
  m.map Prod.fst

/-- A Spark row after `toDF("timestamp","id","product_name","price")`:
pad a short split row with nulls and truncate a long one to 4 columns
(PERMISSIVE CSV mode). -/
def padTo4 (row : List String) : List (Option String) :=
  (row.map some ++ [none, none, none, none]).take 4

/-- Spark's null-skipping addition used by `sum("price")`: null is the
identity and an all-null group sums to null. -/
def nullSum (a b : Option ℚ) : Option ℚ :=
  match a, b with
  | none, b => b
  | some x, none => some x
  | some x, some y => some (x + y)

/-- One step of `groupBy("product_name").agg(sum("price"))`: fold a row's
key and (already cast) price into the group list, keys in first-appearance
order. -/
def addGroup (g : List (Option String × Option ℚ)) (k : Option String) (v : Option ℚ) :
    List (Option String × Option ℚ) :=
  match g with
  | [] => [(k, v)]
  | (k', v') :: rest => if k' = k then (k', nullSum v' v) :: rest else (k', v') :: addGroup rest k v

/-- Model of `groupBy("product_name").agg(sum(col("price").cast("float")))`
over the padded rows: group key is column 2 (`product_name`, possibly null),
value is column 3 (`price`) cast to a number (null when absent or
unparseable), groups summed with null skipping. -/
def groupRows (rows : List (List (Option String))) : List (Option String × Option ℚ) :=
  rows.foldl (fun g row => addGroup g (row.getD 2 none) ((row.getD 3 none).bind parseDecimal)) []

/-- Translated from `process_log_file` (src/aggregate_logs.py:26-46).
`content` is the file's lines, `none` when the file cannot be read.  The
`try/except` catches every failure and returns `None` (modelled `none`):
an unreadable file, an empty file, and a first row whose field count is not 4
(which makes `toDF` with 4 names raise).  Otherwise the result is the grouped
per-product sum rows, where malformed rows contribute null fields. -/
def process_log_file (content : Option (List String)) : Option (List (Option String × Option ℚ)) :=
  match content with
  | none => none
  | some lines =>
    let rows := (lines.filter (fun l => !l.data.isEmpty)).map (fun l => (splitPipe l.data).map String.mk)
    match rows with
    | [] => none
    | r0 :: _ => if r0.length = 4 then some (groupRows (rows.map padTo4)) else none

/-- Translated from the result-collection loop of `main`
(src/aggregate_logs.py:87-95): fold one file's collected rows into the
bucket's `hour_results` dict.  A row whose `total_price` is null makes
`hour_results[product] += amount` raise `TypeError` (`0.0 + None`), modelled
by `none`: the exception is not caught anywhere in `main`. -/
def mergeRows (acc : List (Option String × ℚ)) (rows : List (Option String × Option ℚ)) :
    Option (List (Option String × ℚ)) :=
  match rows with
  | [] => some acc
  | (p, a) :: rest =>
    match a with
    | none => none
    | some v => mergeRows (addTo acc p v) rest

/-- Translated from the per-bucket file loop of `main`
(src/aggregate_logs.py:84-95): process each log file, skip files whose
`process_log_file` returned `None`, and fold the collected rows of the rest
into `hour_results`; `Except.error ()` is the uncaught `TypeError` from
`mergeRows`, which aborts the whole run. -/
def processFiles (readFile : String → Option (List String)) :
    List String → List (Option String × ℚ) → Except Unit (List (Option String × ℚ))
  | [], acc => .ok acc
  | f :: rest, acc =>
    match process_log_file (readFile f) with
    | none => processFiles readFile rest acc
    | some rows =>
      match mergeRows acc rows with
      | none => .error ()
      | some acc2 => processFiles readFile rest acc2

/-- Model of Python `str(x)` on an optional string (a `None` dict key would
print as `"None"`). -/
def pyStr (k : Option String) : String :=
  match k with
  | none => "None"
  | some s => s

/-- One output line as written by `main` (src/aggregate_logs.py:103-104):
`f"{date_str}|{product}|{total:.2f}\n"`. -/
def outputLine (folder : String) (p : Option String) (t : ℚ) : String :=
  format_datetime folder ++ "|" ++ pyStr p ++ "|" ++ formatTotal2 t ++ "\n"

/-- The full text written for one bucket: the output lines of `hour_results`
in dict iteration order (src/aggregate_logs.py:102-104). -/
def bucketContent (folder : String) (totals : List (Option String × ℚ)) : String :=
  String.join (totals.map (fun x => outputLine folder x.1 x.2))

/-- Model of POSIX `os.path.join(a, b)` for a relative or absolute second
component. -/
def os_path_join (a b : String) : String :=
  if b.data.head? = some '/' then b
  else if a = "" ∨ a.data.getLast? = some '/' then a ++ b
  else a ++ "/" ++ b

/-- The output path `os.path.join(output_path, f"{folder}.txt")` with the
source's hard-coded `output_path = "./output"` (src/aggregate_logs.py:61,99). -/
def outPath (folder : String) : String :=
  os_path_join "./output" (folder ++ ".txt")

/-- Model of opening a file in mode `'a'` and writing `content`
(src/aggregate_logs.py:102): the file is created when absent, and the new
text is appended after any existing text. -/
def writeAppend (existing : Option String) (content : String) : String :=
  existing.getD "" ++ content

/-- Model of Python `os.makedirs(path, exist_ok=exist_ok)` outcome as a
function of whether the directory already exists: `none` is a raised
`FileExistsError`. -/
def makedirs (exist_ok : Bool) (alreadyExists : Bool) : Option Unit :=
  if alreadyExists ∧ ¬exist_ok then none else some ()

/-- The filesystem as `main` observes it: the `os.listdir` result on the
input root (`none` when listing raises), the `glob` result per folder, and
the readable lines per file path (`none` when reading fails). -/
structure FS where
  listing : Option (List String)
  filesIn : String → List String
  readFile : String → Option (List String)

/-- Outcome of a run of `main`: discovery error (the `os.listdir` call
raised, no bucket processed), crash (the uncaught `TypeError`, with the
bucket writes completed before it), or normal completion.  Each write is the
pair of the bucket folder name and the text written to its output file. -/
inductive RunResult
  | discoveryError
  | crashed (written : List (String × String))
  | done (written : List (String × String))
deriving DecidableEq

/-- Translated from the bucket loop of `main` (src/aggregate_logs.py:78-106):
for each hour folder, aggregate its files; on the uncaught `TypeError` the
run stops with the writes made so far; otherwise a nonempty `hour_results`
dict is written (appended) to the bucket's output file, an empty one writes
nothing. -/
def runBuckets (fs : FS) : List String → List (String × String) → RunResult
  | [], acc => .done acc.reverse
  | folder :: rest, acc =>
    match processFiles fs.readFile (fs.filesIn folder) [] with
    | .error _ => .crashed acc.reverse
    | .ok totals =>
      if totals.isEmpty then runBuckets fs rest acc
      else runBuckets fs rest ((folder, bucketContent folder totals) :: acc)

/-- Translated from `main` (src/aggregate_logs.py:59-109): list the input
root (a raised `OSError` is not caught inside `try`, so no bucket is
processed), filter hour folders, and process each bucket in order. -/
def runMain (fs : FS) : RunResult :=
  match fs.listing with
  | none => .discoveryError
  | some ds => runBuckets fs (get_hour_folders ds) []

/-- The bucket writes performed by a run (empty on discovery failure). -/
def writesOf : RunResult → List (String × String)
  | .discoveryError => []
  | .crashed w => w
  | .done w => w

/-- Externally visible effects of `main`, in program order. -/
inductive Effect
  | mkdirOutput
  | sparkStart
  | writeFile (path : String) (content : String)
  | sparkStop
deriving DecidableEq

/-- The effect trace of `main` (src/aggregate_logs.py:59-109):
`os.makedirs(output_path, exist_ok=True)` runs first, then the Spark session
starts, then the bucket writes happen inside the `try`, and `spark.stop()`
always runs in the `finally` block — also on a discovery error or a crash. -/
def mainTrace (fs : FS) : List Effect :=
  Effect.mkdirOutput :: Effect.sparkStart ::
    ((writesOf (runMain fs)).map (fun w => Effect.writeFile (outPath w.1) w.2) ++ [Effect.sparkStop])

/-- Sum of the (cast) prices carried by the collected rows for key `p`,
reading a null price as 0. -/
def rowsSum (rows : List (Option String × Option ℚ)) (p : Option String) : ℚ :=
  match rows with
  | [] => 0
  | (k, v) :: rest => (if k = p then v.getD 0 else 0) + rowsSum rest p

/-- The LogRecordParser contract as the spec states it (§4.2): split the
line on the pipe; exactly 4 fields whose 4th parses as a number give a
record, anything else is a per-line parse failure.  This definition follows
the spec's words and is used only to compare the code's behavior against the
claims' expected totals and error counts. -/
def spec_parseLine (line : String) : Option (String × String × String × ℚ) :=
  match (splitPipe line.data).map String.mk with
  | [ts, eid, productName, price] =>
    match parseDecimal price with
    | some v => some (ts, eid, productName, v)
    | none => none
  | _ => none

/-- The FileAggregator contract as the spec states it (§4.3): fold the
file's lines through `spec_parseLine`, accumulating
`totals[productName] += price` for parsed records and an error counter for
failed lines.  Spec-side comparison definition, like `spec_parseLine`. -/
def spec_fileAggregate (lines : List String) : List (String × ℚ) × Nat :=
  lines.foldl
    (fun acc l =>
      match spec_parseLine l with
      | some r => (addTo acc.1 r.2.2.1 r.2.2.2, acc.2)
      | none => (acc.1, acc.2 + 1))
    ([], 0)

/-- The hour-bucket filter as the claim words it: entry names exactly 10
characters long consisting only of decimal digits (0-9).  Spec-side
comparison definition. -/
def spec_hour_filter (base_listing : List String) : List String :=
  base_listing.filter (fun d => d.length == 10 && d.data.all Char.isDigit)

/-- The bucket file of the spec's worked example (§8): two well-formed
Widget lines and one malformed line. -/
def exampleFile : List String :=
  ["2024-11-23T14:00:00|1|Widget|10.50", "2024-11-23T14:05:00|2|Widget|4.50", "garbage"]

/-- The two well-formed lines of `exampleFile` alone. -/
def exampleValid : List String :=
  ["2024-11-23T14:00:00|1|Widget|10.50", "2024-11-23T14:05:00|2|Widget|4.50"]

/-- The text the code writes for the example bucket when the dict holds one
Widget entry totalling 15. -/
def exampleContent : String :=
  bucketContent "2024112314" [(some "Widget", 15)]

/-- A filesystem with one bucket whose single file holds one well-formed-count
line with a non-numeric price (every line malformed). -/
def malformedFS : FS where
  listing := some ["2024010100"]
  filesIn := fun _ => ["./logs/2024010100/f.txt"]
  readFile := fun _ => some ["a|b|c|x"]

/-- A filesystem with one bucket directory containing no `*.txt` files. -/
def emptyBucketFS : FS where
  listing := some ["2024010100"]
  filesIn := fun _ => []
  readFile := fun _ => none

/-- A filesystem with a malformed-line bucket listed before a healthy
bucket. -/
def twoBucketFS : FS where
  listing := some ["2024010100", "2024010101"]
  filesIn := fun folder =>
    if folder = "2024010100" then ["./logs/2024010100/a.txt"] else ["./logs/2024010101/b.txt"]
  readFile := fun f =>
    if f = "./logs/2024010100/a.txt" then some ["a|b|c|x"] else some ["t|1|B|2"]

/-- A filesystem with one bucket holding an unreadable file followed by a
healthy file. -/
def ioErrorFS : FS where
  listing := some ["2024010101"]
  filesIn := fun _ => ["./logs/2024010101/f1.txt", "./logs/2024010101/f2.txt"]
  readFile := fun f => if f = "./logs/2024010101/f1.txt" then none else some ["t|1|B|2"]

/-- A filesystem whose input root cannot be listed at all. -/
def unlistableFS : FS where
  listing := none
  filesIn := fun _ => []
  readFile := fun _ => none

theorem totalOf_addTo {α : Type} [DecidableEq α] (m : List (α × ℚ)) (k : α) (v : ℚ) (p : α) :
    totalOf (addTo m k v) p = totalOf m p + (if k = p then v else 0) := by
  induction m with
  | nil => simp [addTo, totalOf]
  | cons x rest ih =>
    obtain ⟨k', v'⟩ := x
    by_cases h1 : k' = k
    · subst h1
      by_cases h2 : k' = p
      · simp [addTo, totalOf, h2]
        ring
      · simp [addTo, totalOf, h2]
    · simp [addTo, totalOf, h1, ih]
      ring

theorem mem_keysOf_addTo {α : Type} [DecidableEq α] (m : List (α × ℚ)) (k : α) (v : ℚ) (p : α) :
    p ∈ keysOf (addTo m k v) ↔ p ∈ keysOf m ∨ p = k := by
  induction m with
  | nil => simp [addTo, keysOf]
  | cons x rest ih =>
    obtain ⟨k', v'⟩ := x
    by_cases h1 : k' = k
    · subst h1
      simp [addTo, keysOf, List.mem_cons]
      tauto
    · simp [addTo, keysOf, h1, List.mem_cons] at ih ⊢
      tauto

theorem totalOf_eq_zero_of_not_mem {α : Type} [DecidableEq α] (m : List (α × ℚ)) (p : α)
    (h : p ∉ keysOf m) : totalOf m p = 0 := by
  induction m with
  | nil => simp [totalOf]
  | cons x rest ih =>
    obtain ⟨k, v⟩ := x
    simp only [keysOf, List.map_cons, List.mem_cons, not_or] at h
    obtain ⟨h1, h2⟩ := h
    have hr := ih (by simpa [keysOf] using h2)
    have hk : k ≠ p := fun e => h1 e.symm
    simp [totalOf, hk, hr]

theorem mergeRows_totalOf (rows : List (Option String × Option ℚ)) :
    ∀ acc m, mergeRows acc rows = some m →
      ∀ p, totalOf m p = totalOf acc p + rowsSum rows p := by
  induction rows with
  | nil =>
    intro acc m h p
    simp [mergeRows] at h
    subst h
    simp [rowsSum]
  | cons x rest ih =>
    intro acc m h p
    obtain ⟨q, a⟩ := x
    cases a with
    | none => simp [mergeRows] at h
    | some v =>
      simp only [mergeRows] at h
      have hm := ih (addTo acc q v) m h p
      rw [hm, totalOf_addTo]
      simp [rowsSum]
      ring

theorem mergeRows_keys (rows : List (Option String × Option ℚ)) :
    ∀ acc m, mergeRows acc rows = some m →
      ∀ p, (p ∈ keysOf m ↔ p ∈ keysOf acc ∨ p ∈ keysOf rows) := by
  induction rows with
  | nil =>
    intro acc m h p
    simp [mergeRows] at h
    subst h
    simp [keysOf]
  | cons x rest ih =>
    intro acc m h p
    obtain ⟨q, a⟩ := x
    cases a with
    | none => simp [mergeRows] at h
    | some v =>
      simp only [mergeRows] at h
      have hm := ih (addTo acc q v) m h p
      rw [hm, mem_keysOf_addTo]
      simp [keysOf, List.mem_cons]
      tauto

theorem digitChar_isDigit (n : Nat) : (digitChar n).isDigit = true := by
  unfold digitChar
  split_ifs <;> decide

theorem formatTotal2_data (q : ℚ) :
    ∃ pre d1 d2, (formatTotal2 q).data = pre ++ '.' :: [d1, d2] ∧
      d1.isDigit = true ∧ d2.isDigit = true := by
  refine ⟨((if roundHalfEven (q * 100) < 0 then "-" else "") ++
      Nat.repr ((roundHalfEven (q * 100)).natAbs / 100)).data,
    digitChar ((roundHalfEven (q * 100)).natAbs % 100 / 10),
    digitChar ((roundHalfEven (q * 100)).natAbs % 100 % 10),
    ?_, digitChar_isDigit _, digitChar_isDigit _⟩
  simp [formatTotal2, twoDigits, String.data_append]

theorem format_datetime_chars (a0 a1 a2 a3 a4 a5 a6 a7 a8 a9 : Char) :
    format_datetime (String.mk [a0, a1, a2, a3, a4, a5, a6, a7, a8, a9]) =
      String.mk [a0, a1, a2, a3, '/', a4, a5, '/', a6, a7, ' ', a8, a9] := rfl

theorem roundHalfEven_intCast (n : ℤ) : roundHalfEven ((n : ℚ)) = n := by
  unfold roundHalfEven
  norm_num

example : splitPipe "a|b".data = [['a'], ['b']] := by decide
example : get_hour_folders ["2024112314", "notafolder", "20241123140"] = ["2024112314"] := by decide
example : format_datetime "2024112314" = "2024/11/23 14" := by decide
example : parseDecimal "garbage" = none := by decide
example : parseDecimal "10.50" = some (21 / 2) := by
  have h : parseDecimal "10.50" =
      some ((1 : ℚ) * (((10 : ℕ) : ℚ) + ((50 : ℕ) : ℚ) / (10 : ℚ) ^ (2 : ℕ))) := rfl
  rw [h]
  norm_num

theorem formatTotal2_fifteen : formatTotal2 15 = "15.00" := by
  have h : (15 : ℚ) * 100 = ((1500 : ℤ) : ℚ) := by norm_num
  simp only [formatTotal2, h, roundHalfEven_intCast]
  decide

theorem exampleContent_eq : exampleContent = "2024/11/23 14|Widget|15.00\n" := by
  have h : exampleContent =
      String.join [format_datetime "2024112314" ++ "|" ++ pyStr (some "Widget") ++ "|" ++
        formatTotal2 15 ++ "\n"] := rfl
  rw [h, formatTotal2_fifteen]
  decide

/-- C1: refuted on the code — a source bug, as the spec's design note §9
itself flags.  `main` opens each bucket's output file in mode 'a'
(src/aggregate_logs.py:102), i.e. append, not overwrite: writing the example
bucket's summary into a fresh file gives its content once, but a second run
over the same unchanged input appends the same text again, so the file is
not byte-identical to the first run's output. -/
theorem C1_append_not_idempotent :
    writeAppend none exampleContent = exampleContent ∧
    writeAppend (some exampleContent) exampleContent ≠ exampleContent := by
  constructor
  · rfl
  · rw [exampleContent_eq]
    decide

/-- C2: refuted on the code — a code bug.  On the spec's own example file
(two well-formed Widget lines and the malformed line "garbage"), the code
does not skip-and-count the malformed line: Spark groups it under a null
product whose null price sum makes `main`'s accumulation
`hour_results[product] += amount` raise an uncaught `TypeError`
(`0.0 + None`), modelled by `Except.error ()`, aborting the whole run.
The code also maintains no per-line error counter at all.  The spec-side
FileAggregator meets the claim: its totals on the full file equal those of
the valid lines alone, with an error count of exactly 1 (and 0 on the valid
lines alone). -/
theorem C2_malformed_line_crashes :
    processFiles (fun _ => some exampleFile) ["./logs/2024112314/20241123140000.txt"] [] =
      Except.error () ∧
    (spec_fileAggregate exampleFile).1 = (spec_fileAggregate exampleValid).1 ∧
    (spec_fileAggregate exampleFile).2 = 1 ∧
    (spec_fileAggregate exampleValid).2 = 0 :=
  ⟨rfl, rfl, rfl, rfl⟩

/-- C3: confirmed.  For two files of a bucket whose collected rows merge
without error, the merged dict's total for every product is the sum of the
two per-file totals (exact over the rational price model, hence within any
floating-point tolerance); merging in the opposite file order gives the same
totals; the merged key set is the union of the per-file key sets; and for
files with disjoint product sets each product keeps its per-file total
unmodified. -/
theorem C3_bucket_merge (rows1 rows2 : List (Option String × Option ℚ))
    (t1 t2 m12 m21 : List (Option String × ℚ))
    (h1 : mergeRows [] rows1 = some t1) (h2 : mergeRows [] rows2 = some t2)
    (h12 : mergeRows t1 rows2 = some m12) (h21 : mergeRows t2 rows1 = some m21)
    (p : Option String) :
    totalOf m12 p = totalOf t1 p + totalOf t2 p ∧
    totalOf m21 p = totalOf m12 p ∧
    (p ∈ keysOf m12 ↔ p ∈ keysOf t1 ∨ p ∈ keysOf t2) ∧
    ((∀ q ∈ keysOf t1, q ∉ keysOf t2) →
      (p ∈ keysOf t1 → totalOf m12 p = totalOf t1 p) ∧
      (p ∈ keysOf t2 → totalOf m12 p = totalOf t2 p)) := by
  have e1 : totalOf t1 p = rowsSum rows1 p := by
    simpa [totalOf] using mergeRows_totalOf rows1 [] t1 h1 p
  have e2 : totalOf t2 p = rowsSum rows2 p := by
    simpa [totalOf] using mergeRows_totalOf rows2 [] t2 h2 p
  have a12 : totalOf m12 p = totalOf t1 p + totalOf t2 p := by
    rw [mergeRows_totalOf rows2 t1 m12 h12 p, e2]
  have a21 : totalOf m21 p = totalOf m12 p := by
    rw [mergeRows_totalOf rows1 t2 m21 h21 p, ← e1, a12]
    ring
  have kt2 : p ∈ keysOf t2 ↔ p ∈ keysOf rows2 := by
    simpa [keysOf] using mergeRows_keys rows2 [] t2 h2 p
  refine ⟨a12, a21, ?_, ?_⟩
  · rw [mergeRows_keys rows2 t1 m12 h12 p, ← kt2]
  · intro hd
    constructor
    · intro hp1
      rw [a12, totalOf_eq_zero_of_not_mem t2 p (hd p hp1), add_zero]
    · intro hp2
      have hnp1 : p ∉ keysOf t1 := fun hp1 => hd p hp1 hp2
      rw [a12, totalOf_eq_zero_of_not_mem t1 p hnp1, zero_add]

/-- Witness for C3 at two concrete single-product files, discharging the
merge hypotheses by computation. -/
theorem C3_bucket_merge_witness :
    totalOf [(some "A", (1 : ℚ)), (some "B", 2)] (some "A") =
      totalOf [(some "A", (1 : ℚ))] (some "A") + totalOf [(some "B", (2 : ℚ))] (some "A") ∧
    totalOf [(some "B", (2 : ℚ)), (some "A", 1)] (some "A") =
      totalOf [(some "A", (1 : ℚ)), (some "B", 2)] (some "A") :=
  ⟨(C3_bucket_merge [(some "A", some 1)] [(some "B", some 2)] _ _ _ _
      rfl rfl rfl rfl (some "A")).1,
   (C3_bucket_merge [(some "A", some 1)] [(some "B", some 2)] _ _ _ _
      rfl rfl rfl rfl (some "A")).2.1⟩

/-- C4: refuted on the code — a code bug sharing the root cause of C2.  The
parts of the claim about genuinely empty buckets hold: a bucket directory
with zero matching files ends the run normally with no output file
(`emptyBucketFS`).  But a bucket whose files contain only malformed lines is
not always treated as "nothing to write": when a file's lines all have 4
fields but no parseable price (`malformedFS`, single line "a|b|c|x"), the
null price sum makes `main` raise the uncaught `TypeError` — the run aborts
with an error instead of skipping the bucket. -/
theorem C4_empty_bucket :
    runMain malformedFS = RunResult.crashed [] ∧
    runMain emptyBucketFS = RunResult.done [] :=
  ⟨rfl, rfl⟩

/-- C7: refuted on the code — a code bug sharing the root cause of C2.
Per-file read failures are indeed non-fatal: in `ioErrorFS` the unreadable
first file is skipped and the sibling file is still aggregated and written.
But a parse error can be fatal: in `twoBucketFS` the malformed line
"a|b|c|x" of the first bucket raises the uncaught `TypeError`, the run
crashes having written nothing, and the healthy second bucket is never
processed — contradicting "no parse error is ever fatal to the whole
run". -/
theorem C7_parse_error_fatal :
    runMain twoBucketFS = RunResult.crashed [] ∧
    (∃ c, runMain ioErrorFS = RunResult.done [("2024010101", c)]) :=
  ⟨rfl, _, rfl⟩

/-- C8: confirmed.  `main` calls `os.makedirs(output_path, exist_ok=True)`
as its first action (src/aggregate_logs.py:64), before the Spark session,
the scan and every bucket write: `makedirs` with `exist_ok` succeeds whether
or not the directory already exists, the first effect of every trace is the
directory creation, and every write effect sits strictly after it (the
earliest write index is 2). -/
theorem C8_mkdir_first (fs : FS) (b : Bool) :
    makedirs true b = some () ∧
    (mainTrace fs).get? 0 = some Effect.mkdirOutput ∧
    ∀ i p c, (mainTrace fs).get? i = some (Effect.writeFile p c) → 2 ≤ i := by
  refine ⟨by simp [makedirs], rfl, ?_⟩
  intro i p c h
  match i with
  | 0 => simp [mainTrace] at h
  | 1 => simp [mainTrace] at h
  | n + 2 => omega

/-- Witness for C8 on a concrete filesystem and a pre-existing output
directory. -/
theorem C8_mkdir_first_witness :
    makedirs true true = some () ∧
    (mainTrace emptyBucketFS).get? 0 = some Effect.mkdirOutput ∧
    ∀ i p c, (mainTrace emptyBucketFS).get? i = some (Effect.writeFile p c) → 2 ≤ i :=
  C8_mkdir_first emptyBucketFS true

/-- C10: confirmed.  When listing the input root raises (`listing = none`),
the run aborts before processing any bucket: no bucket output file is
written or modified (the write list is empty), and the effect trace is
exactly the output-directory creation, the Spark start and the `finally`
block's Spark stop. -/
theorem C10_discovery_failure_atomic (fs : FS) (h : fs.listing = none) :
    runMain fs = RunResult.discoveryError ∧
    writesOf (runMain fs) = [] ∧
    mainTrace fs = [Effect.mkdirOutput, Effect.sparkStart, Effect.sparkStop] := by
  have hr : runMain fs = RunResult.discoveryError := by
    unfold runMain
    rw [h]
  exact ⟨hr, by simp [writesOf, hr], by simp [mainTrace, writesOf, hr]⟩

/-- Witness for C10 on the concrete unlistable filesystem. -/
theorem C10_discovery_failure_atomic_witness :
    runMain unlistableFS = RunResult.discoveryError ∧
    writesOf (runMain unlistableFS) = [] ∧
    mainTrace unlistableFS = [Effect.mkdirOutput, Effect.sparkStart, Effect.sparkStop] :=
  C10_discovery_failure_atomic unlistableFS rfl

/-- C5 counterexample: the claim's filter is "exactly 10 characters, only
decimal digits", but Python's `d.isdigit()` also accepts non-decimal Unicode
digit characters: on a listing holding the 10-character name made of the
superscript-two character, `get_hour_folders` keeps the name while the
claimed decimal-digit filter rejects it. -/
theorem C5_superscript_counterexample :
    get_hour_folders [String.mk (List.replicate 10 '²')] ≠
      spec_hour_filter [String.mk (List.replicate 10 '²')] := by
  decide

/-- C5 (amended): the scanner returns exactly the entry names that are 10
characters long and consist only of characters accepted by Python's
`str.isdigit` — a superset of the decimal digits that also contains other
Unicode digit characters such as superscripts; entries failing either test
are silently excluded (the function is total, so no error), and a root with
no matching entries yields the empty list. -/
theorem C5_hour_folder_filter (base_listing : List String) (d : String) :
    (d ∈ get_hour_folders base_listing ↔
      d ∈ base_listing ∧ d.length = 10 ∧ ∀ c ∈ d.data, pyIsDigit c = true) ∧
    get_hour_folders [] = [] := by
  refine ⟨?_, rfl⟩
  rw [get_hour_folders, List.mem_filter]
  constructor
  · rintro ⟨hm, hf⟩
    simp only [Bool.and_eq_true, beq_iff_eq, pyIsDigitStr, List.all_eq_true] at hf
    exact ⟨hm, hf.1, hf.2.2⟩
  · rintro ⟨hm, hl, ha⟩
    refine ⟨hm, ?_⟩
    simp only [Bool.and_eq_true, beq_iff_eq, pyIsDigitStr, List.all_eq_true]
    refine ⟨hl, ?_, ha⟩
    have hlen : d.data.length = 10 := hl
    cases hd : d.data with
    | nil => rw [hd] at hlen; simp at hlen
    | cons x xs => rfl

/-- C6: confirmed for the text a run writes for a bucket (a pre-existing
output file keeps its old content in front of it — that is C1's append bug,
settled separately).  For a 10-character bucket id, the output path joins
the configured output root with `<bucketId>.txt`; the written text is one
line per aggregated product of the form `date|product|total\n`, where the
date prefix slices the bucket id as `YYYY/MM/DD HH`; and every formatted
total ends with a decimal point followed by exactly two decimal digits. -/
theorem C6_output_format (a0 a1 a2 a3 a4 a5 a6 a7 a8 a9 : Char)
    (totals : List (Option String × ℚ)) (h : a0 ≠ '/') :
    outPath (String.mk [a0, a1, a2, a3, a4, a5, a6, a7, a8, a9]) =
      "./output/" ++ String.mk [a0, a1, a2, a3, a4, a5, a6, a7, a8, a9] ++ ".txt" ∧
    bucketContent (String.mk [a0, a1, a2, a3, a4, a5, a6, a7, a8, a9]) totals =
      String.join (totals.map (fun x =>
        String.mk [a0, a1, a2, a3, '/', a4, a5, '/', a6, a7, ' ', a8, a9] ++ "|" ++
          pyStr x.1 ++ "|" ++ formatTotal2 x.2 ++ "\n")) ∧
    ∀ x ∈ totals, ∃ pre d1 d2, (formatTotal2 x.2).data = pre ++ '.' :: [d1, d2] ∧
      d1.isDigit = true ∧ d2.isDigit = true := by
  refine ⟨?_, ?_, fun x _ => formatTotal2_data x.2⟩
  · have h1 : ¬((String.mk [a0, a1, a2, a3, a4, a5, a6, a7, a8, a9] ++ ".txt").data.head? =
        some '/') := by
      intro e
      exact h (Option.some.inj e)
    have h2 : ¬(("./output" : String) = "" ∨ ("./output" : String).data.getLast? = some '/') := by
      decide
    unfold outPath os_path_join
    rw [if_neg h1, if_neg h2]
    rfl
  · simp only [bucketContent, outputLine, format_datetime_chars]

/-- Witness for C6 at the spec's example bucket id and a one-product totals
map. -/
theorem C6_output_format_witness :
    outPath "2024112314" = "./output/" ++ "2024112314" ++ ".txt" ∧
    bucketContent "2024112314" [(some "Widget", (15 : ℚ))] =
      String.join ([(some "Widget", (15 : ℚ))].map (fun x =>
        "2024/11/23 14" ++ "|" ++ pyStr x.1 ++ "|" ++ formatTotal2 x.2 ++ "\n")) ∧
    ∀ x ∈ [(some "Widget", (15 : ℚ))], ∃ pre d1 d2,
      (formatTotal2 x.2).data = pre ++ '.' :: [d1, d2] ∧
        d1.isDigit = true ∧ d2.isDigit = true :=
  C6_output_format '2' '0' '2' '4' '1' '1' '2' '3' '1' '4' [(some "Widget", 15)] (by decide)

/-- C9: confirmed.  `format_datetime` is total and pure on every string: it
returns exactly the concatenation of the Python slices
`s[0:4] + "/" + s[4:6] + "/" + s[6:8] + " " + s[8:10]` (clamping slices,
never raising), with no validation — a short input yields truncated or empty
fields, as the concrete evaluations on "abc" and "" show. -/
theorem C9_format_datetime_total (s : String) :
    format_datetime s = String.mk (s.data.take 4 ++ ('/' :: ((s.data.drop 4).take 2 ++
      ('/' :: ((s.data.drop 6).take 2 ++ (' ' :: (s.data.drop 8).take 2)))))) ∧
    format_datetime "abc" = "abc// " ∧
    format_datetime "" = "// " := by
  refine ⟨String.ext ?_, by decide, by decide⟩
  simp only [format_datetime, pySlice, String.data_append,
    show ("/" : String).data = ['/'] from rfl, show (" " : String).data = [' '] from rfl,
    List.drop_zero, List.append_assoc, List.singleton_append]
  norm_num
